import Mathlib

/-
Shallow embedding of the kedge request-dispatch core that the claims are
about: the HTTP ad-hoc addresser (package router, addresser.Address and
its helpers) and the gRPC director (grpc/director/director.go, New).
Go machine integers are modelled as Nat/Int with explicit wrapping where
the source converts; Go strings are Lean strings, manipulated through
their character lists (the source only handles ASCII configuration and
host strings, where Go's byte indexing and character indexing agree).
A Go runtime panic (nil-pointer dereference, index out of range) is an
explicit constructor of the result type.
-/

/-- One entry of the protobuf repeated field Adhoc_Port.AllowedRanges: an
inclusive port range with uint32 bounds. -/
structure Adhoc_Port_Range where
  From : Nat
  To : Nat
deriving DecidableEq

/-- The protobuf Adhoc_Port message: explicitly allowed ports, allowed
inclusive ranges, and the default port used when the request has none. -/
structure Adhoc_Port where
  Allowed : List Nat
  AllowedRanges : List Adhoc_Port_Range
  Default : Nat
deriving DecidableEq

/-- The protobuf Adhoc message: a DNS name matcher plus the Port rule.
Port is a message pointer in the generated Go code, hence nilable,
modelled as an Option. -/
structure Adhoc where
  DnsNameMatcher : String
  Port : Option Adhoc_Port
deriving DecidableEq

/-- Type of the pluggable DefaultALookup function: a list of address
strings or a Go error (modelled as a string message). -/
abbrev ALookup := String → Except String (List String)

/-- Errors addresser.Address can return: NewError(StatusBadRequest,
malformed port), NewError(StatusBadRequest, port not allowed), and
ErrRouteNotFound. -/
inductive AddrError where
  | malformedPort
  | portNotAllowed (port : Int)
  | routeNotFound
deriving DecidableEq

/-- Outcome of addresser.Address, with an explicit constructor for a Go
runtime panic (nil dereference or index out of range). -/
inductive AddressResult where
  | ok (addr : String)
  | err (e : AddrError)
  | panicked
deriving DecidableEq

/-- Model of strings.LastIndex(hostStr, sep) for a one-character
separator: index of the last occurrence, none when absent. -/
def lastIndexOf : List Char → Char → Option Nat
  | [], _ => none
  | x :: xs, c =>
    match lastIndexOf xs c with
    | some i => some (i + 1)
    | none => if x = c then some 0 else none

/-- Digit run of strconv.ParseInt in base 10: nonempty, all decimal
digits, accumulated left to right. -/
def parseDigits (cs : List Char) : Option Nat :=
  if cs = [] then none
  else if cs.all (fun c => c.isDigit) then
    some (cs.foldl (fun a c => a * 10 + (c.toNat - 48)) 0)
  else none

/-- Sign-applied half of strconv.ParseInt(s, 10, 16): digits then the
int16 range check (out of range is ErrRange, an error). -/
def parseInt16Signed (sign : Int) (cs : List Char) : Option Int :=
  match parseDigits cs with
  | none => none
  | some n =>
    let v : Int := sign * (n : Int)
    if -32768 ≤ v ∧ v ≤ 32767 then some v else none

/-- Model of strconv.ParseInt(s, 10, 16): optional leading sign, then
base-10 digits, result fitting in an int16. -/
def parseInt16 (cs : List Char) : Option Int :=
  match cs with
  | '+' :: rest => parseInt16Signed 1 rest
  | '-' :: rest => parseInt16Signed (-1) rest
  | rest => parseInt16Signed 1 rest

/-- Model of addresser.extractHostPort: split at the LAST colon. The
source takes portPart as hostStr[portOffset:], which KEEPS the colon in
the text handed to ParseInt; a port of 0 encodes "no port present". -/
def extractHostPort (hostStr : String) : Except AddrError (String × Int) :=
  let cs := hostStr.toList
  match lastIndexOf cs ':' with
  | none => Except.ok (hostStr, 0)
  | some i =>
    match parseInt16 (cs.drop i) with
    | none => Except.error AddrError.malformedPort
    | some n => Except.ok (String.mk (cs.take i), n)

/-- Model of addresser.hostMatches: an empty matcher never matches; a
matcher starting with a star matches only a host EQUAL to the matcher
with the star stripped; any other matcher is exact equality. -/
def hostMatches (host matcher : String) : Bool :=
  match matcher.toList with
  | [] => false
  | c :: rest => if c ≠ '*' then host == matcher else host == String.mk rest

/-- Go uint32 conversion of an int: two's-complement wrap modulo 2^32. -/
def goUint32 (i : Int) : Nat := (i % (4294967296 : Int)).toNat

/-- Model of addresser.portAllowed: the uint32-converted port is an
explicit member of Allowed, or lies inclusively inside some entry of
AllowedRanges. -/
def portAllowed (port : Int) (portRule : Adhoc_Port) : Bool :=
  let uPort := goUint32 port
  portRule.Allowed.any (fun p => p == uPort) ||
    portRule.AllowedRanges.any (fun r => decide (r.From ≤ uPort) && decide (uPort ≤ r.To))

/-- Outcome of addresser.resolveHost. -/
inductive ResolveResult where
  | ok (addr : String)
  | err
  | panicked
deriving DecidableEq

/-- Model of addresser.resolveHost: a lookup error becomes the
StatusBadGateway error (with an empty address); on lookup success the
source returns addrs[0], which panics when the list is empty. -/
def resolveHost (lookup : ALookup) (hostStr : String) : ResolveResult :=
  match lookup hostStr with
  | Except.error _ => ResolveResult.err
  | Except.ok [] => ResolveResult.panicked
  | Except.ok (a :: _) => ResolveResult.ok a

/-- Model of net.JoinHostPort: bracket the host when it contains a
colon, else plain host:port concatenation. -/
def joinHostPort (host port : String) : String :=
  if host.toList.contains ':' then "[" ++ host ++ "]:" ++ port
  else host ++ ":" ++ port

/-- Model of strconv.FormatInt(i, 10): decimal rendering. -/
def formatInt (i : Int) : String := toString i

/-- The effective-port computation inlined in addresser.Address: a zero
parsed port means the request supplied none, so take the rule's Default
when nonzero, else 80; a nonzero parsed port is used unchanged. -/
def portForRule (port : Int) (portRule : Adhoc_Port) : Int :=
  if port = 0 then (if portRule.Default ≠ 0 then (portRule.Default : Int) else 80)
  else port

/-- The rule loop of addresser.Address. Rules are matched against the
FULL req.URL.Host (reqHost, port included), not the parsed hostname. A
matching rule whose Port message is nil dereferences nil (panic: when
the parsed port is 0 at rule.Port.Default, otherwise inside portAllowed
reading portRule.Allowed). On a resolveHost ERROR the source returns the
joined address, whose ip half is the empty string the error path of
resolveHost yields; on resolveHost success it falls through and keeps
scanning the remaining rules. -/
def addressLoop (lookup : ALookup) (reqHost hostName : String) (port : Int) :
    List Adhoc → AddressResult
  | [] => AddressResult.err AddrError.routeNotFound
  | rule :: rest =>
    if hostMatches reqHost rule.DnsNameMatcher then
      match rule.Port with
      | none => AddressResult.panicked
      | some portRule =>
        if portAllowed (portForRule port portRule) portRule then
          match resolveHost lookup hostName with
          | ResolveResult.err =>
            AddressResult.ok (joinHostPort "" (formatInt (portForRule port portRule)))
          | ResolveResult.panicked => AddressResult.panicked
          | ResolveResult.ok _ => addressLoop lookup reqHost hostName port rest
        else AddressResult.err (AddrError.portNotAllowed (portForRule port portRule))
    else addressLoop lookup reqHost hostName port rest

/-- Model of addresser.Address: parse req.URL.Host into hostname and
optional port, then scan the configured Adhoc rules in order. -/
def Address (lookup : ALookup) (rules : List Adhoc) (reqHost : String) : AddressResult :=
  match extractHostPort reqHost with
  | Except.error e => AddressResult.err e
  | Except.ok (hostName, port) => addressLoop lookup reqHost hostName port rules

/-- Model of the gRPC director.New closure: ask the router for a backend
name; on a router error return that error without touching the pool; on
success return exactly the pool's connection or the pool's error for the
returned name. -/
def directorNew {E C : Type} (route : String → Except E String)
    (poolConn : String → Except E C) (fullMethodName : String) : Except E C :=
  match route fullMethodName with
  | Except.error e => Except.error e
  | Except.ok beName =>
    match poolConn beName with
    | Except.error e => Except.error e
    | Except.ok cc => Except.ok cc

/-- Helper: a run of non-matching rules at the front of the list is
skipped by the rule loop without affecting the result. -/
theorem addressLoop_append_nonmatching (lookup : ALookup) (reqHost hostName : String)
    (port : Int) (rest : List Adhoc) :
    ∀ pre : List Adhoc, (∀ r ∈ pre, hostMatches reqHost r.DnsNameMatcher = false) →
      addressLoop lookup reqHost hostName port (pre ++ rest) =
        addressLoop lookup reqHost hostName port rest := by
  intro pre
  induction pre with
  | nil => intro _; rfl
  | cons r rs ih =>
    intro hpre
    have hr := hpre r (List.mem_cons_self r rs)
    have hrs : ∀ x ∈ rs, hostMatches reqHost x.DnsNameMatcher = false :=
      fun x hx => hpre x (List.mem_cons_of_mem r hx)
    simp [addressLoop, hr, ih hrs]

/-- Helper: when the separator occurs in the list, the last-index search
finds an index at which the remaining suffix starts with the separator. -/
theorem lastIndexOf_drop (c : Char) :
    ∀ (cs : List Char) (i : Nat), lastIndexOf cs c = some i → ∃ l, cs.drop i = c :: l := by
  intro cs
  induction cs with
  | nil => intro i h; exact absurd h (by simp [lastIndexOf])
  | cons x xs ih =>
    intro i h
    unfold lastIndexOf at h
    cases hx : lastIndexOf xs c with
    | some j =>
      rw [hx] at h
      obtain ⟨l, hl⟩ := ih j hx
      cases h
      exact ⟨l, by simpa using hl⟩
    | none =>
      rw [hx] at h
      by_cases hxc : x = c
      · rw [if_pos hxc] at h
        cases h
        exact ⟨xs, by simp [hxc]⟩
      · rw [if_neg hxc] at h
        exact absurd h (by simp)

/-- Helper: a character occurring in the list is found by the
last-index search. -/
theorem lastIndexOf_isSome (c : Char) :
    ∀ cs : List Char, c ∈ cs → ∃ i, lastIndexOf cs c = some i := by
  intro cs
  induction cs with
  | nil => intro h; exact absurd h (by simp)
  | cons x xs ih =>
    intro h
    unfold lastIndexOf
    cases hx : lastIndexOf xs c with
    | some j => exact ⟨j + 1, rfl⟩
    | none =>
      rcases List.mem_cons.mp h with h | h
      · exact ⟨0, by simp [h.symm]⟩
      · obtain ⟨j, hj⟩ := ih h
        rw [hj] at hx
        exact absurd hx (by simp)

/-- Helper: the digit run of ParseInt rejects any text starting with a
colon, so ParseInt of the colon-keeping portPart slice always fails. -/
theorem parseInt16_colon (l : List Char) : parseInt16 (':' :: l) = none := by
  have hd : parseDigits (':' :: l) = none := by
    simp [parseDigits]
  simp [parseInt16, parseInt16Signed, hd]

/-- Claim C1 (code_bug evidence): with the AdhocRule list
[(dnsNameMatcher "*.pods.test.local", allowedPortRanges [(1024,65535)])],
a request to host "10-0-0-5.pods.test.local:9000" and a lookup stub
returning ["10.0.0.5"], Address does not return "10.0.0.5:9000"; it
fails immediately with the malformed-port error, because extractHostPort
hands ParseInt the slice ":9000" with the colon still attached. -/
theorem C1_end_to_end_scenario_fails :
    Address (fun _ => Except.ok ["10.0.0.5"])
      [⟨"*.pods.test.local", some ⟨[], [⟨1024, 65535⟩], 0⟩⟩]
      "10-0-0-5.pods.test.local:9000" = AddressResult.err AddrError.malformedPort := by
  decide

/-- Claim C2 (code_bug evidence): for a request whose hostname a rule
matches and whose effective port that rule allows, the resolver branch
is inverted: a SUCCESSFUL lookup makes Address skip the rule and end in
the route-not-found error, while a FAILED lookup makes Address return
the joined address ":80" (empty ip half) with no error. -/
theorem C2_resolution_branch_inverted :
    Address (fun _ => Except.ok ["1.2.3.4"]) [⟨"myhost", some ⟨[80], [], 0⟩⟩] "myhost"
      = AddressResult.err AddrError.routeNotFound ∧
    Address (fun _ => Except.error "lookup refused") [⟨"myhost", some ⟨[80], [], 0⟩⟩] "myhost"
      = AddressResult.ok ":80" := by
  exact ⟨by decide, by decide⟩

/-- Claim C3 (code_bug evidence): the wildcard matcher
"*.pods.test.local" does NOT match "foo.pods.test.local" in the code
(hostMatches demands equality with the matcher minus the star, not a
suffix match): the only host it accepts is ".pods.test.local". The two
hosts the claim excludes are indeed rejected. -/
theorem C3_wildcard_matcher_is_equality :
    hostMatches "foo.pods.test.local" "*.pods.test.local" = false ∧
    hostMatches "pods.test.local" "*.pods.test.local" = false ∧
    hostMatches "foo.other.local" "*.pods.test.local" = false ∧
    hostMatches ".pods.test.local" "*.pods.test.local" = true := by
  exact ⟨by decide, by decide, by decide, by decide⟩

/-- Claim C4 (code_bug evidence): a host with no colon parses to the
whole string and port 0 with no error, but a colon is ALWAYS fatal: for
every host string containing a colon — numeric port text included —
extractHostPort fails with the malformed-port error, because the
portPart slice keeps the colon and ParseInt rejects it. -/
theorem C4_any_colon_is_malformed :
    (extractHostPort "example.com" = Except.ok ("example.com", 0)) ∧
    (∀ hostStr : String, ':' ∈ hostStr.toList →
      extractHostPort hostStr = Except.error AddrError.malformedPort) := by
  refine ⟨rfl, ?_⟩
  intro hostStr hmem
  obtain ⟨i, hi⟩ := lastIndexOf_isSome ':' hostStr.toList hmem
  obtain ⟨l, hl⟩ := lastIndexOf_drop ':' hostStr.toList i hi
  have hi' : lastIndexOf hostStr.data ':' = some i := hi
  have hl' : List.drop i hostStr.data = ':' :: l := hl
  simp [extractHostPort, hi', hl', parseInt16_colon]

/-- Witness for C4: the general colon theorem applied at the concrete
failing input "example.com:8080", whose port text is numeric. -/
theorem C4_any_colon_is_malformed_witness :
    extractHostPort "example.com:8080" = Except.error AddrError.malformedPort :=
  C4_any_colon_is_malformed.2 "example.com:8080" (by decide)

/-- Claim C5: each invocation of the gRPC director first asks the
Router; a Router error is returned unchanged and the result does not
depend on the pool at all (the pool is never consulted); on a Router
success the director returns exactly the Pool's connection or error for
the returned backend name, with no retry in either case. -/
theorem C5_director_router_then_pool {E C : Type} (route : String → Except E String)
    (poolConn poolConn2 : String → Except E C) (m : String) :
    (∀ e, route m = Except.error e →
      directorNew route poolConn m = Except.error e ∧
      directorNew route poolConn m = directorNew route poolConn2 m) ∧
    (∀ b, route m = Except.ok b → directorNew route poolConn m = poolConn b) := by
  constructor
  · intro e he
    constructor <;> simp [directorNew, he]
  · intro b hb
    simp only [directorNew, hb]
    cases h : poolConn b <;> simp [h]

/-- Witness for C5: the director theorem applied at concrete router and
pool functions, covering both the router-error and router-success
branches. -/
theorem C5_director_router_then_pool_witness :
    directorNew (fun _ => (Except.error "unknown route" : Except String String))
        (fun _ => Except.ok "conn1") "svc"
      = Except.error "unknown route" ∧
    directorNew (fun _ => (Except.error "unknown route" : Except String String))
        (fun _ => Except.ok "conn1") "svc"
      = directorNew (fun _ => (Except.error "unknown route" : Except String String))
          (fun _ => Except.ok "conn2") "svc" ∧
    directorNew (fun _ => (Except.ok "be" : Except String String))
        (fun _ => (Except.ok "conn1" : Except String String)) "svc"
      = Except.ok "conn1" := by
  refine ⟨?_, ?_, ?_⟩
  · exact ((C5_director_router_then_pool (fun _ => Except.error "unknown route")
      (fun _ => Except.ok "conn1") (fun _ => Except.ok "conn2") "svc").1
        "unknown route" rfl).1
  · exact ((C5_director_router_then_pool (fun _ => Except.error "unknown route")
      (fun _ => Except.ok "conn1") (fun _ => Except.ok "conn2") "svc").1
        "unknown route" rfl).2
  · exact (C5_director_router_then_pool (fun _ => Except.ok "be")
      (fun _ => Except.ok "conn1") (fun _ => Except.ok "conn1") "svc").2 "be" rfl

/-- Claim C6: a port rule with only the range (1024,65535) accepts 8080
and rejects 80; a rule with only the explicit port 443 rejects 8443;
and in general a port is allowed iff its uint32 conversion is an
explicit Allowed member or lies inclusively inside some range. -/
theorem C6_port_authorization :
    portAllowed 8080 ⟨[], [⟨1024, 65535⟩], 0⟩ = true ∧
    portAllowed 80 ⟨[], [⟨1024, 65535⟩], 0⟩ = false ∧
    portAllowed 8443 ⟨[443], [], 0⟩ = false ∧
    (∀ (port : Int) (pr : Adhoc_Port),
      portAllowed port pr = true ↔
        (goUint32 port ∈ pr.Allowed ∨
          ∃ r ∈ pr.AllowedRanges, r.From ≤ goUint32 port ∧ goUint32 port ≤ r.To)) := by
  refine ⟨by decide, by decide, by decide, ?_⟩
  intro port pr
  simp [portAllowed, List.any_eq_true]

/-- Claim C7: the effective port is the parsed request port when that is
nonzero; when the request supplied no port (parsed port 0), it is the
rule's Default when nonzero, else 80. -/
theorem C7_default_port (port : Int) (portRule : Adhoc_Port) :
    (port = 0 →
      (portRule.Default ≠ 0 → portForRule port portRule = (portRule.Default : Int)) ∧
      (portRule.Default = 0 → portForRule port portRule = 80)) ∧
    (port ≠ 0 → portForRule port portRule = port) := by
  unfold portForRule
  constructor
  · intro h0
    constructor <;> intro hd <;> simp [h0, hd]
  · intro h0
    simp [h0]

/-- Witness for C7: the defaulting theorem applied at a rule with
Default 9090 (no request port), a rule with Default 0 (no request
port), and a request that did supply port 443. -/
theorem C7_default_port_witness :
    portForRule 0 ⟨[], [], 9090⟩ = 9090 ∧
    portForRule 0 ⟨[], [], 0⟩ = 80 ∧
    portForRule 443 ⟨[], [], 8080⟩ = 443 := by
  refine ⟨?_, ?_, ?_⟩
  · exact ((C7_default_port 0 ⟨[], [], 9090⟩).1 rfl).1 (by decide)
  · exact ((C7_default_port 0 ⟨[], [], 0⟩).1 rfl).2 rfl
  · exact (C7_default_port 443 ⟨[], [], 8080⟩).2 (by decide)

/-- Claim C8: a rule whose DnsNameMatcher is the empty string never
matches any host, and such a rule is skipped by Address: prepending it
to any rule list leaves the Address result unchanged. -/
theorem C8_empty_matcher_never_matches :
    (∀ host : String, hostMatches host "" = false) ∧
    (∀ (lookup : ALookup) (rules : List Adhoc) (rule : Adhoc) (reqHost : String),
      rule.DnsNameMatcher = "" →
        Address lookup (rule :: rules) reqHost = Address lookup rules reqHost) := by
  have hempty : ∀ host : String, hostMatches host "" = false := fun host => rfl
  refine ⟨hempty, ?_⟩
  intro lookup rules rule reqHost hm
  unfold Address
  cases h : extractHostPort reqHost with
  | error e => rfl
  | ok hp =>
    obtain ⟨hostName, port⟩ := hp
    simp [addressLoop, hm, hempty reqHost]

/-- Witness for C8: the empty-matcher theorem applied at a concrete
empty-matcher rule sitting in front of a matching rule; the result is
the same as without it. -/
theorem C8_empty_matcher_never_matches_witness :
    hostMatches "anyhost" "" = false ∧
    Address (fun _ => Except.error "down") [⟨"", some ⟨[443], [], 0⟩⟩,
        ⟨"myhost", some ⟨[80], [], 0⟩⟩] "myhost"
      = Address (fun _ => Except.error "down") [⟨"myhost", some ⟨[80], [], 0⟩⟩] "myhost" := by
  refine ⟨C8_empty_matcher_never_matches.1 "anyhost", ?_⟩
  exact C8_empty_matcher_never_matches.2 (fun _ => Except.error "down")
    [⟨"myhost", some ⟨[80], [], 0⟩⟩] ⟨"", some ⟨[443], [], 0⟩⟩ "myhost" rfl

/-- Claim C9: Address is not total: if the first rule whose matcher
matches the request host carries a nil Port sub-message, Address
dereferences that nil (reading Default when no request port, or reading
Allowed inside portAllowed) and panics instead of returning an error. -/
theorem C9_nil_port_panics (lookup : ALookup) (pre post : List Adhoc) (rule : Adhoc)
    (reqHost hostName : String) (port : Int)
    (hparse : extractHostPort reqHost = Except.ok (hostName, port))
    (hpre : ∀ r ∈ pre, hostMatches reqHost r.DnsNameMatcher = false)
    (hmatch : hostMatches reqHost rule.DnsNameMatcher = true)
    (hnil : rule.Port = none) :
    Address lookup (pre ++ rule :: post) reqHost = AddressResult.panicked := by
  simp only [Address, hparse]
  rw [addressLoop_append_nonmatching lookup reqHost hostName port (rule :: post) pre hpre]
  simp [addressLoop, hmatch, hnil]

/-- Witness for C9: the nil-Port theorem applied at a rule list whose
first rule does not match and whose second, matching rule has no Port
message; Address panics. -/
theorem C9_nil_port_panics_witness :
    Address (fun _ => Except.ok ["1.2.3.4"])
      [⟨"other.host", some ⟨[80], [], 0⟩⟩, ⟨"target.host", none⟩] "target.host"
      = AddressResult.panicked := by
  exact C9_nil_port_panics (fun _ => Except.ok ["1.2.3.4"])
    [⟨"other.host", some ⟨[80], [], 0⟩⟩] [] ⟨"target.host", none⟩
    "target.host" "target.host" 0 rfl (by decide) (by decide) rfl

/-- Claim C10: resolveHost indexes addrs[0] without an emptiness check:
a lookup returning the empty list with no error makes resolveHost (and
Address, once a matching rule with an allowed port reaches resolution)
panic instead of returning an error. -/
theorem C10_empty_lookup_panics (lookup : ALookup) (rest : List Adhoc) (rule : Adhoc)
    (portRule : Adhoc_Port) (reqHost hostName : String) (port : Int)
    (hparse : extractHostPort reqHost = Except.ok (hostName, port))
    (hmatch : hostMatches reqHost rule.DnsNameMatcher = true)
    (hport : rule.Port = some portRule)
    (hallow : portAllowed (portForRule port portRule) portRule = true)
    (hempty : lookup hostName = Except.ok []) :
    resolveHost lookup hostName = ResolveResult.panicked ∧
      Address lookup (rule :: rest) reqHost = AddressResult.panicked := by
  have hres : resolveHost lookup hostName = ResolveResult.panicked := by
    simp [resolveHost, hempty]
  refine ⟨hres, ?_⟩
  unfold Address
  rw [hparse]
  simp [addressLoop, hmatch, hport, hallow, hres]

/-- Witness for C10: the empty-lookup theorem applied at a matching
rule allowing port 80 and a lookup stub returning an empty address list
with no error; resolveHost and Address both panic. -/
theorem C10_empty_lookup_panics_witness :
    resolveHost (fun _ => Except.ok []) "myhost" = ResolveResult.panicked ∧
      Address (fun _ => Except.ok []) [⟨"myhost", some ⟨[80], [], 0⟩⟩] "myhost"
        = AddressResult.panicked := by
  exact C10_empty_lookup_panics (fun _ => Except.ok []) [] ⟨"myhost", some ⟨[80], [], 0⟩⟩
    ⟨[80], [], 0⟩ "myhost" "myhost" 0 rfl (by decide) rfl (by decide) rfl
